import Mathlib

set_option maxHeartbeats 1000000

/-! Shallow embedding of the SafeDroid risk engine.

The embedding follows `backend/app_data.py` (static reference tables) and
`backend/risk_engine.py` (the `PermissionAnalyzer` operations), together with
the per-app loop of `bulk_analyze` in `backend/main.py`.  Python dictionaries
become association lists (`List (String × _)`) so that insertion order, which
Python preserves and the code relies on for threshold iteration, is kept.
A raising dictionary index (`d[k]`) is modelled as an `Option`-valued lookup
whose `none` stands for the `KeyError` path. -/

/-- Metadata record for one permission, mirroring an entry of
`PERMISSION_METADATA` in `app_data.py`. -/
structure PermMeta where
  category : String
  risk_level : String
  severity : Nat
  description : String
  privacy_impact : String
  can_access : List String
  dangerous : Bool
  deriving DecidableEq

/-- `PERMISSION_METADATA` from `app_data.py`, in declaration order. -/
def PERMISSION_METADATA : List (String × PermMeta) := [
  ("INTERNET",
    ⟨"SYSTEM", "NORMAL", 1, "Allows app to access the internet", "LOW",
     ["Network data", "Online services"], false⟩),
  ("CAMERA",
    ⟨"HARDWARE", "DANGEROUS", 8, "Access to device camera", "CRITICAL",
     ["Video recordings", "Photos", "Visual data"], true⟩),
  ("MICROPHONE",
    ⟨"HARDWARE", "DANGEROUS", 9, "Access to device microphone", "CRITICAL",
     ["Audio recordings", "Voice data", "Conversations"], true⟩),
  ("READ_EXTERNAL_STORAGE",
    ⟨"STORAGE", "DANGEROUS", 7, "Read access to device storage", "CRITICAL",
     ["Photos", "Videos", "Documents", "Personal files"], true⟩),
  ("WRITE_EXTERNAL_STORAGE",
    ⟨"STORAGE", "DANGEROUS", 7, "Write access to device storage", "HIGH",
     ["Modify files", "Create backups"], true⟩),
  ("LOCATION",
    ⟨"LOCATION", "DANGEROUS", 9, "Precise location tracking", "CRITICAL",
     ["GPS coordinates", "Real-time location", "Location history"], true⟩),
  ("ACCESS_FINE_LOCATION",
    ⟨"LOCATION", "DANGEROUS", 9, "Precise GPS location access", "CRITICAL",
     ["GPS data", "Exact coordinates"], true⟩),
  ("ACCESS_COARSE_LOCATION",
    ⟨"LOCATION", "DANGEROUS", 6, "Approximate location access (network-based)", "HIGH",
     ["Approximate location", "Network-based location"], true⟩),
  ("CONTACTS",
    ⟨"PERSONAL_DATA", "DANGEROUS", 8, "Access to device contacts", "CRITICAL",
     ["Contact list", "Phone numbers", "Email addresses", "Contact details"], true⟩),
  ("READ_CONTACTS",
    ⟨"PERSONAL_DATA", "DANGEROUS", 8, "Read contact information", "CRITICAL",
     ["Contact data"], true⟩),
  ("WRITE_CONTACTS",
    ⟨"PERSONAL_DATA", "DANGEROUS", 7, "Modify contact information", "HIGH",
     ["Add/modify contacts"], true⟩),
  ("SMS",
    ⟨"COMMUNICATION", "DANGEROUS", 9, "Send and receive SMS messages", "CRITICAL",
     ["SMS content", "Message history"], true⟩),
  ("READ_SMS",
    ⟨"COMMUNICATION", "DANGEROUS", 8, "Read SMS messages", "CRITICAL",
     ["SMS data"], true⟩),
  ("SEND_SMS",
    ⟨"COMMUNICATION", "DANGEROUS", 8, "Send SMS messages", "HIGH",
     ["Send messages"], true⟩),
  ("CALL_LOG",
    ⟨"COMMUNICATION", "DANGEROUS", 8, "Access call history", "CRITICAL",
     ["Call history", "Call duration", "Phone numbers called"], true⟩),
  ("READ_CALL_LOG",
    ⟨"COMMUNICATION", "DANGEROUS", 8, "Read call logs", "CRITICAL",
     ["Call records"], true⟩),
  ("WRITE_CALL_LOG",
    ⟨"COMMUNICATION", "DANGEROUS", 7, "Modify call logs", "HIGH",
     ["Modify call records"], true⟩),
  ("PHONE_STATE",
    ⟨"PHONE_INFO", "DANGEROUS", 6, "Access phone state and identity", "HIGH",
     ["Phone number", "IMEI", "Device ID"], true⟩),
  ("CALL_PHONE",
    ⟨"PHONE_INFO", "DANGEROUS", 7, "Make phone calls", "HIGH",
     ["Initiate calls"], true⟩),
  ("READ_CALENDAR",
    ⟨"PERSONAL_DATA", "DANGEROUS", 7, "Read calendar events", "HIGH",
     ["Calendar events", "Meeting details", "Schedule"], true⟩),
  ("WRITE_CALENDAR",
    ⟨"PERSONAL_DATA", "DANGEROUS", 6, "Create/modify calendar events", "MEDIUM",
     ["Add/modify events"], true⟩),
  ("GET_ACCOUNTS",
    ⟨"ACCOUNT", "DANGEROUS", 6, "Access device accounts", "HIGH",
     ["Account information", "Emails", "Usernames"], true⟩),
  ("SENSORS",
    ⟨"HARDWARE", "DANGEROUS", 6, "Access motion and sensor data", "MEDIUM",
     ["Accelerometer", "Gyroscope", "Step counter"], true⟩),
  ("DEVICE_ADMIN",
    ⟨"SYSTEM", "CRITICAL", 10, "Device administration capabilities", "CRITICAL",
     ["Full device control", "Password reset", "Device lock"], true⟩)]

/-- One entry of `PERMISSION_CATEGORIES` in `app_data.py`. -/
structure CategoryInfo where
  name : String
  description : String
  deriving DecidableEq

/-- `PERMISSION_CATEGORIES` from `app_data.py`. -/
def PERMISSION_CATEGORIES : List (String × CategoryInfo) := [
  ("SYSTEM", ⟨"System Permissions", "Core system-level access"⟩),
  ("HARDWARE", ⟨"Hardware Access", "Physical device sensors and hardware"⟩),
  ("STORAGE", ⟨"Storage Access", "File system and storage access"⟩),
  ("LOCATION", ⟨"Location Tracking", "GPS and location services"⟩),
  ("PERSONAL_DATA", ⟨"Personal Data", "Private user information"⟩),
  ("COMMUNICATION", ⟨"Communication", "Calls, messages, and communications"⟩),
  ("PHONE_INFO", ⟨"Phone Information", "Device phone information"⟩),
  ("ACCOUNT", ⟨"Account Information", "User account data"⟩)]

/-- `APP_PERMISSION_DATA` from `app_data.py`: every current entry is the bare
permission-list shape. -/
def APP_PERMISSION_DATA : List (String × List String) := [
  ("Instagram", ["INTERNET", "CAMERA", "MICROPHONE", "LOCATION"]),
  ("WhatsApp", ["INTERNET", "CAMERA", "MICROPHONE", "CONTACTS"]),
  ("FakeApp", ["INTERNET", "CAMERA", "MICROPHONE", "CONTACTS", "SMS", "CALL_LOG"]),
  ("TikTok", ["INTERNET", "CAMERA", "MICROPHONE", "LOCATION", "READ_EXTERNAL_STORAGE"]),
  ("Gmail", ["INTERNET", "GET_ACCOUNTS", "READ_CONTACTS"])]

/-- `PERMISSION_CORRELATIONS` from `app_data.py`. -/
def PERMISSION_CORRELATIONS : List (String × List String) := [
  ("SMS", ["CALL_LOG", "CONTACTS"]),
  ("CALL_LOG", ["SMS", "MICROPHONE"]),
  ("CAMERA", ["CONTACTS", "LOCATION"]),
  ("MICROPHONE", ["CALL_LOG", "CONTACTS"]),
  ("CONTACTS", ["SMS", "CALL_LOG", "LOCATION"]),
  ("LOCATION", ["CAMERA", "MICROPHONE"]),
  ("DEVICE_ADMIN", ["SMS", "CALL_LOG", "CONTACTS"]),
  ("GET_ACCOUNTS", ["CONTACTS", "READ_CALENDAR"])]

/-- A threshold band value: `calculate_risk_level` accepts either a Python
dict with optional `min`/`max` keys (defaults 0 and 100) or a 2-tuple. -/
inductive Threshold where
  | dict (min? : Option Int) (max? : Option Int)
  | tup (lo : Int) (hi : Int)
  deriving DecidableEq

/-- `RISK_THRESHOLDS` from `app_data.py`: all four bands use the tuple shape. -/
def RISK_THRESHOLDS : List (String × Threshold) :=
  [("LOW", .tup 0 15), ("MEDIUM", .tup 16 45), ("HIGH", .tup 46 85),
   ("CRITICAL", .tup 86 100)]

/-- `TRUSTED_PUBLISHERS` from `app_data.py` (unused by the analyzer logic). -/
def TRUSTED_PUBLISHERS : List String :=
  ["google", "apple", "microsoft", "meta", "whatsapp"]

/-! ## calculate_severity_score -/

/-- One entry of a severity-breakdown bucket: `{permission, severity,
description}`. -/
structure SevEntry where
  permission : String
  severity : Nat
  description : String
  deriving DecidableEq

/-- The mutable state of the loop inside `calculate_severity_score`. -/
structure SevState where
  total : Nat
  catScores : List (String × Nat)
  critical : List SevEntry
  dangerous : List SevEntry
  normal : List SevEntry
  deriving DecidableEq

/-- `category_scores[category] += severity`, creating the key at the end on
first sight, as a Python dict does. -/
def addCategoryScore : List (String × Nat) → String → Nat → List (String × Nat)
  | [], cat, sev => [(cat, sev)]
  | (c, s) :: rest, cat, sev =>
    if c = cat then (c, s + sev) :: rest else (c, s) :: addCategoryScore rest cat sev

/-- One iteration of the `for perm in permissions` loop of
`calculate_severity_score`. -/
def sevStep (st : SevState) (perm : String) : SevState :=
  match PERMISSION_METADATA.lookup perm with
  | none => st
  | some meta =>
    if 8 ≤ meta.severity then
      ⟨st.total + meta.severity, addCategoryScore st.catScores meta.category meta.severity,
       st.critical ++ [⟨perm, meta.severity, meta.description⟩], st.dangerous, st.normal⟩
    else if 5 ≤ meta.severity then
      ⟨st.total + meta.severity, addCategoryScore st.catScores meta.category meta.severity,
       st.critical, st.dangerous ++ [⟨perm, meta.severity, meta.description⟩], st.normal⟩
    else
      ⟨st.total + meta.severity, addCategoryScore st.catScores meta.category meta.severity,
       st.critical, st.dangerous, st.normal ++ [⟨perm, meta.severity, meta.description⟩]⟩

/-- The severity breakdown dict of `calculate_severity_score`. -/
structure SeverityBreakdown where
  critical : List SevEntry
  dangerous : List SevEntry
  normal : List SevEntry
  deriving DecidableEq

/-- The result dict of `calculate_severity_score`. -/
structure SeverityScore where
  total_score : Nat
  category_scores : List (String × Nat)
  severity_breakdown : SeverityBreakdown
  critical_count : Nat
  dangerous_count : Nat
  normal_count : Nat
  deriving DecidableEq

/-- `PermissionAnalyzer.calculate_severity_score` from `risk_engine.py`. -/
def calculate_severity_score (permissions : List String) : SeverityScore :=
  let st := permissions.foldl sevStep ⟨0, [], [], [], []⟩
  ⟨st.total, st.catScores, ⟨st.critical, st.dangerous, st.normal⟩,
   st.critical.length, st.dangerous.length, st.normal.length⟩

/-! ## calculate_risk_level -/

/-- Whether a threshold band (either shape) contains `score`, mirroring the
two `isinstance` branches of `calculate_risk_level`. -/
def thresholdMatches (t : Threshold) (score : Int) : Bool :=
  match t with
  | .dict min? max? => decide (min?.getD 0 ≤ score ∧ score ≤ max?.getD 100)
  | .tup lo hi => decide (lo ≤ score ∧ score ≤ hi)

/-- The band-iteration loop of `calculate_risk_level`: first matching band
wins; the fallthrough returns `"CRITICAL"`. -/
def calcRiskLevelAux : List (String × Threshold) → Int → String
  | [], _ => "CRITICAL"
  | (level, t) :: rest, score =>
    if thresholdMatches t score then level else calcRiskLevelAux rest score

/-- `PermissionAnalyzer.calculate_risk_level` from `risk_engine.py`, applied
to the table `RISK_THRESHOLDS`. -/
def calculate_risk_level (score : Int) : String :=
  calcRiskLevelAux RISK_THRESHOLDS score

/-- Rank of a risk band in the order LOW < MEDIUM < HIGH < CRITICAL. -/
def levelRank : String → Nat
  | "LOW" => 0
  | "MEDIUM" => 1
  | "HIGH" => 2
  | _ => 3

/-! ## Characterizations used to state the claims about severity scoring -/

/-- Severity a permission contributes to `total_score`: its metadata severity
when known, 0 when unknown. -/
def permSeverity (p : String) : Nat :=
  match PERMISSION_METADATA.lookup p with
  | some m => m.severity
  | none => 0

/-- The critical-bucket entry produced for `p`, if any (known and
severity ≥ 8). -/
def criticalEntry (p : String) : Option SevEntry :=
  match PERMISSION_METADATA.lookup p with
  | some m => if 8 ≤ m.severity then some ⟨p, m.severity, m.description⟩ else none
  | none => none

/-- The dangerous-bucket entry produced for `p`, if any (known and
5 ≤ severity < 8). -/
def dangerousEntry (p : String) : Option SevEntry :=
  match PERMISSION_METADATA.lookup p with
  | some m =>
    if 5 ≤ m.severity ∧ m.severity < 8 then some ⟨p, m.severity, m.description⟩ else none
  | none => none

/-- The normal-bucket entry produced for `p`, if any (known and
severity < 5). -/
def normalEntry (p : String) : Option SevEntry :=
  match PERMISSION_METADATA.lookup p with
  | some m => if m.severity < 5 then some ⟨p, m.severity, m.description⟩ else none
  | none => none

/-! ## detect_permission_correlations -/

/-- One `{primary, correlated, count}` entry of the `correlations` list. -/
structure Correlation where
  primary : String
  correlated : List String
  count : Nat
  deriving DecidableEq

/-- The body of the `for perm in permissions` loop of
`detect_permission_correlations`: the entry contributed by `perm`, if any. -/
def correlationEntry (permissions : List String) (perm : String) : Option Correlation :=
  match PERMISSION_CORRELATIONS.lookup perm with
  | none => none
  | some related_perms =>
    let found_related := related_perms.filter (fun p => decide (p ∈ permissions))
    if found_related.isEmpty then none
    else some ⟨perm, found_related, found_related.length⟩

/-- The result dict of `detect_permission_correlations`. -/
structure CorrelationResult where
  correlations : List Correlation
  suspicious_patterns : List String
  pattern_risk_level : String
  deriving DecidableEq

/-- The four hard-coded suspicious-pattern rules of
`detect_permission_correlations`, in source order. -/
def suspiciousPatterns (permissions : List String) : List String :=
  (if "SMS" ∈ permissions ∧ "CALL_PHONE" ∈ permissions then
    ["App can intercept SMS and make calls - VERY SUSPICIOUS"] else []) ++
  (if "DEVICE_ADMIN" ∈ permissions then
    ["Device admin access requested - CRITICAL THREAT"] else []) ++
  (if "READ_CONTACTS" ∈ permissions ∧ "READ_SMS" ∈ permissions ∧
      "CALL_LOG" ∈ permissions then
    ["Full communication profile access - EXTREME DATA COLLECTION"] else []) ++
  (if "CAMERA" ∈ permissions ∧ "MICROPHONE" ∈ permissions ∧
      "ACCESS_FINE_LOCATION" ∈ permissions then
    ["Complete surveillance capability detected"] else [])

/-- `PermissionAnalyzer.detect_permission_correlations` from `risk_engine.py`. -/
def detect_permission_correlations (permissions : List String) : CorrelationResult :=
  let correlations := permissions.filterMap (correlationEntry permissions)
  let suspicious := suspiciousPatterns permissions
  ⟨correlations, suspicious, if suspicious.isEmpty then "NORMAL" else "CRITICAL"⟩

/-! ## analyze_privacy_impact -/

/-- One entry of a privacy-impact bucket. -/
structure PrivacyEntry where
  permission : String
  description : String
  can_access : List String
  deriving DecidableEq

/-- The `privacy_impacts` dict, with its four fixed keys. -/
structure PrivacyImpacts where
  critical : List PrivacyEntry
  high : List PrivacyEntry
  medium : List PrivacyEntry
  low : List PrivacyEntry
  deriving DecidableEq

/-- `privacy_impacts[impact].append(e)`: `none` models the `KeyError` raised
when `impact` is not one of the four fixed keys. -/
def addImpact (pi : PrivacyImpacts) (impact : String) (e : PrivacyEntry) :
    Option PrivacyImpacts :=
  if impact = "CRITICAL" then some ⟨pi.critical ++ [e], pi.high, pi.medium, pi.low⟩
  else if impact = "HIGH" then some ⟨pi.critical, pi.high ++ [e], pi.medium, pi.low⟩
  else if impact = "MEDIUM" then some ⟨pi.critical, pi.high, pi.medium ++ [e], pi.low⟩
  else if impact = "LOW" then some ⟨pi.critical, pi.high, pi.medium, pi.low ++ [e]⟩
  else none

/-- Python set insertion: add `x` unless already present. -/
def setInsert (s : List String) (x : String) : List String :=
  if x ∈ s then s else s ++ [x]

/-- `affected_data_types.update(xs)`. -/
def setUpdateAll (s : List String) (xs : List String) : List String :=
  xs.foldl setInsert s

/-- The loop of `analyze_privacy_impact`, carrying the buckets and the
`affected_data_types` set. -/
def privacyLoop : List String → PrivacyImpacts → List String →
    Option (PrivacyImpacts × List String)
  | [], pi, types => some (pi, types)
  | perm :: rest, pi, types =>
    match PERMISSION_METADATA.lookup perm with
    | none => privacyLoop rest pi types
    | some meta =>
      match addImpact pi meta.privacy_impact ⟨perm, meta.description, meta.can_access⟩ with
      | none => none
      | some pi2 => privacyLoop rest pi2 (setUpdateAll types meta.can_access)

/-- The result dict of `analyze_privacy_impact`. -/
structure PrivacyResult where
  privacy_impacts : PrivacyImpacts
  affected_data_types : List String
  critical_data_access : Bool
  data_types_count : Nat
  deriving DecidableEq

/-- `PermissionAnalyzer.analyze_privacy_impact` from `risk_engine.py`. -/
def analyze_privacy_impact (permissions : List String) : Option PrivacyResult :=
  match privacyLoop permissions ⟨[], [], [], []⟩ [] with
  | none => none
  | some (pi, types) => some ⟨pi, types, decide (0 < pi.critical.length), types.length⟩

/-! ## categorize_permissions -/

/-- One `{name, severity, risk_level}` entry of a category group. -/
structure CatPermEntry where
  name : String
  severity : Nat
  risk_level : String
  deriving DecidableEq

/-- One value of the `categorized` dict: the category display name and its
permission entries. -/
structure CategoryGroup where
  name : String
  permissions : List CatPermEntry
  deriving DecidableEq

/-- `categorized[category]["permissions"].append(e)` for an existing key. -/
def appendToCat : List (String × CategoryGroup) → String → CatPermEntry →
    List (String × CategoryGroup)
  | [], _, _ => []
  | (c, g) :: rest, cat, e =>
    if c = cat then (c, ⟨g.name, g.permissions ++ [e]⟩) :: rest
    else (c, g) :: appendToCat rest cat e

/-- The loop of `categorize_permissions`; `none` models the `KeyError` raised
by `self.permission_categories[category]` when a fresh category is missing
from the category table. -/
def categorizeLoop : List String → List (String × CategoryGroup) →
    Option (List (String × CategoryGroup))
  | [], acc => some acc
  | perm :: rest, acc =>
    match PERMISSION_METADATA.lookup perm with
    | none => categorizeLoop rest acc
    | some meta =>
      if (acc.lookup meta.category).isSome then
        categorizeLoop rest (appendToCat acc meta.category ⟨perm, meta.severity, meta.risk_level⟩)
      else
        match PERMISSION_CATEGORIES.lookup meta.category with
        | none => none
        | some catInfo =>
          categorizeLoop rest
            (acc ++ [(meta.category, ⟨catInfo.name, [⟨perm, meta.severity, meta.risk_level⟩]⟩)])

/-- `PermissionAnalyzer.categorize_permissions` from `risk_engine.py`. -/
def categorize_permissions (permissions : List String) :
    Option (List (String × CategoryGroup)) :=
  categorizeLoop permissions []

/-! ## detect_threat_indicators -/

/-- The threat-indicator result dict. -/
structure ThreatIndicators where
  privilege_escalation : Bool
  data_exfiltration_risk : String
  financial_risk : String
  privacy_risk : String
  detected_threats : List String
  deriving DecidableEq

/-- Whether a permission is flagged `dangerous` in the metadata table, the
filter applied to list-shaped app records. -/
def dangerousPerm (p : String) : Bool :=
  match PERMISSION_METADATA.lookup p with
  | some m => m.dangerous
  | none => false

/-- `PermissionAnalyzer.detect_threat_indicators` from `risk_engine.py`;
every current `APP_PERMISSION_DATA` entry takes the list-shaped branch. -/
def detect_threat_indicators (app_name : String) : ThreatIndicators :=
  match APP_PERMISSION_DATA.lookup app_name with
  | none => ⟨false, "LOW", "LOW", "LOW", []⟩
  | some permissions =>
    let dangerous_count := (permissions.filter dangerousPerm).length
    ⟨decide ("DEVICE_ADMIN" ∈ permissions),
     if 10 < dangerous_count then "CRITICAL"
       else if 6 < dangerous_count then "HIGH"
       else if 3 < dangerous_count then "MEDIUM" else "LOW",
     if "SEND_SMS" ∈ permissions ∨ "CALL_PHONE" ∈ permissions then "HIGH" else "LOW",
     if 15 < permissions.length then "CRITICAL"
       else if 10 < permissions.length then "HIGH" else "LOW",
     (if "DEVICE_ADMIN" ∈ permissions then ["Device admin access"] else []) ++
       (if 10 < dangerous_count then ["Excessive dangerous permissions"] else []) ++
       (if "SEND_SMS" ∈ permissions ∨ "CALL_PHONE" ∈ permissions then
         ["Can make calls or send SMS (financial risk)"] else []) ++
       (if 15 < permissions.length then
         ["Unusually high number of permission requests"] else [])⟩

/-! ## analyze_app and the bulk-analyze loop -/

/-- The successful report of `analyze_app_comprehensive` (fields relevant to
list-shaped app records; `risk_profile`, justifications and history are empty
defaults for that shape). -/
structure Report where
  app_name : String
  version : String
  risk_score : Nat
  risk_level : String
  total_declared : Nat
  dangerous_count : Nat
  runtime_requested : Nat
  severity : SeverityScore
  correlations : CorrelationResult
  threat_indicators : ThreatIndicators
  privacy_analysis : PrivacyResult
  categorized_permissions : List (String × CategoryGroup)
  deriving DecidableEq

/-- The returned dict of `analyze_app_comprehensive`: either a dict carrying
an `error` field, or the full report. -/
inductive AnalyzeResult where
  | error (msg : String)
  | report (r : Report)
  deriving DecidableEq

/-- `analyze_app` from `risk_engine.py` (delegating to
`PermissionAnalyzer.analyze_app_comprehensive`); the outer `Option` models an
uncaught exception from a sub-analysis. -/
def analyze_app (app_name : String) : Option AnalyzeResult :=
  match APP_PERMISSION_DATA.lookup app_name with
  | none => some (.error "App not found in database")
  | some permissions =>
    let severity_analysis := calculate_severity_score permissions
    match analyze_privacy_impact permissions, categorize_permissions permissions with
    | some privacy_analysis, some categorized =>
      some (.report ⟨app_name, "Unknown", severity_analysis.total_score,
        calculate_risk_level (severity_analysis.total_score : Int),
        permissions.length, (permissions.filter dangerousPerm).length, 0,
        severity_analysis, detect_permission_correlations permissions,
        detect_threat_indicators app_name, privacy_analysis, categorized⟩)
    | _, _ => none

/-- The per-app loop of `bulk_analyze` in `main.py`: unknown names are
skipped, error results are dropped, reports are collected in order. -/
def bulkResults : List String → Option (List Report)
  | [] => some []
  | app_name :: rest =>
    if (APP_PERMISSION_DATA.lookup app_name).isSome then
      match analyze_app app_name with
      | none => none
      | some (.error _) => bulkResults rest
      | some (.report r) =>
        match bulkResults rest with
        | none => none
        | some rs => some (r :: rs)
    else bulkResults rest

/-! ## Further statement-side characterizations -/

/-- A `Threshold` value represents the inclusive band `[lo, hi]` in one of
the two accepted shapes. -/
def reprOf (lo hi : Int) (t : Threshold) : Prop :=
  t = .dict (some lo) (some hi) ∨ t = .tup lo hi

/-- The dict-shaped rendering of the declared `RISK_THRESHOLDS` bounds. -/
def RISK_THRESHOLDS_DICT : List (String × Threshold) :=
  [("LOW", .dict (some 0) (some 15)), ("MEDIUM", .dict (some 16) (some 45)),
   ("HIGH", .dict (some 46) (some 85)), ("CRITICAL", .dict (some 86) (some 100))]

/-- The correlation pair `(pr, cor)` is reported for the input `perms`. -/
def pairFound (perms : List String) (pr : String) (cor : List String) : Prop :=
  ∃ c ∈ (detect_permission_correlations perms).correlations,
    c.primary = pr ∧ c.correlated = cor

/-- Some entry named `p` occurs in some category group of `res`. -/
def nameInCats (res : List (String × CategoryGroup)) (p : String) : Prop :=
  ∃ pair ∈ res, ∃ e ∈ pair.2.permissions, e.name = p

/-- Every entry sits in the bucket of its own metadata category. -/
def catInv (acc : List (String × CategoryGroup)) : Prop :=
  ∀ pair ∈ acc, ∀ e ∈ pair.2.permissions,
    ∃ m, PERMISSION_METADATA.lookup e.name = some m ∧ m.category = pair.1

theorem sevLoop_spec (perms : List String) (st : SevState) :
    (perms.foldl sevStep st).total = st.total + (perms.map permSeverity).sum ∧
    (perms.foldl sevStep st).critical = st.critical ++ perms.filterMap criticalEntry ∧
    (perms.foldl sevStep st).dangerous = st.dangerous ++ perms.filterMap dangerousEntry ∧
    (perms.foldl sevStep st).normal = st.normal ++ perms.filterMap normalEntry := by
  induction perms generalizing st with
  | nil => simp
  | cons p rest ih =>
    obtain ⟨ih1, ih2, ih3, ih4⟩ := ih (sevStep st p)
    simp only [List.foldl_cons]
    rw [ih1, ih2, ih3, ih4]
    simp only [List.map_cons, List.sum_cons, List.filterMap_cons]
    cases hm : PERMISSION_METADATA.lookup p with
    | none =>
      simp [sevStep, permSeverity, criticalEntry, dangerousEntry, normalEntry, hm]
    | some meta =>
      rcases Nat.lt_or_ge meta.severity 8 with h8 | h8
      · rcases Nat.lt_or_ge meta.severity 5 with h5 | h5
        · refine ⟨?_, ?_, ?_, ?_⟩ <;>
            simp [sevStep, permSeverity, criticalEntry, dangerousEntry, normalEntry, hm,
              Nat.not_le.mpr h8, Nat.not_le.mpr h5, h5, List.append_assoc] <;> omega
        · refine ⟨?_, ?_, ?_, ?_⟩ <;>
            simp [sevStep, permSeverity, criticalEntry, dangerousEntry, normalEntry, hm,
              Nat.not_le.mpr h8, h5, h8, Nat.not_lt.mpr h5, List.append_assoc] <;> omega
      · have h5 : 5 ≤ meta.severity := by omega
        refine ⟨?_, ?_, ?_, ?_⟩ <;>
          simp [sevStep, permSeverity, criticalEntry, dangerousEntry, normalEntry, hm,
            h8, h5, Nat.not_lt.mpr h8, Nat.not_lt.mpr h5, List.append_assoc] <;> omega

theorem filterMap_entry_known {f : String → Option SevEntry}
    (hf : ∀ p e, f p = some e → e.permission = p ∧ (PERMISSION_METADATA.lookup p).isSome)
    {perms : List String} {e : SevEntry} (he : e ∈ perms.filterMap f) :
    (PERMISSION_METADATA.lookup e.permission).isSome := by
  rcases List.mem_filterMap.mp he with ⟨p, _, hfe⟩
  rcases hf p e hfe with ⟨h1, h2⟩
  rwa [h1]

theorem criticalEntry_known (p : String) (e : SevEntry) (h : criticalEntry p = some e) :
    e.permission = p ∧ (PERMISSION_METADATA.lookup p).isSome := by
  unfold criticalEntry at h
  cases hm : PERMISSION_METADATA.lookup p with
  | none => rw [hm] at h; exact absurd h (by simp)
  | some m =>
    rw [hm] at h
    constructor
    · by_cases h8 : 8 ≤ m.severity
      · simp [h8] at h; rw [← h]
      · simp [h8] at h
    · simp

theorem dangerousEntry_known (p : String) (e : SevEntry) (h : dangerousEntry p = some e) :
    e.permission = p ∧ (PERMISSION_METADATA.lookup p).isSome := by
  unfold dangerousEntry at h
  cases hm : PERMISSION_METADATA.lookup p with
  | none => rw [hm] at h; exact absurd h (by simp)
  | some m =>
    rw [hm] at h
    constructor
    · by_cases hd : 5 ≤ m.severity ∧ m.severity < 8
      · simp [hd] at h; rw [← h]
      · simp [hd] at h
    · simp

theorem normalEntry_known (p : String) (e : SevEntry) (h : normalEntry p = some e) :
    e.permission = p ∧ (PERMISSION_METADATA.lookup p).isSome := by
  unfold normalEntry at h
  cases hm : PERMISSION_METADATA.lookup p with
  | none => rw [hm] at h; exact absurd h (by simp)
  | some m =>
    rw [hm] at h
    constructor
    · by_cases h5 : m.severity < 5
      · simp [h5] at h; rw [← h]
      · simp [h5] at h
    · simp

/-- C1: for every permission list, `calculate_severity_score` returns a
total score equal to the sum of the metadata severities of the known input
permissions (unknown permissions contribute 0), buckets each known
permission into exactly one of critical (severity ≥ 8), dangerous
(5 ≤ severity < 8) or normal (severity < 5) with `{permission, severity,
description}` entries, keeps unknown permissions out of every bucket, and
reports the three counts as the bucket lengths. -/
theorem C1_severity_score_correct (perms : List String) :
    (calculate_severity_score perms).total_score = (perms.map permSeverity).sum ∧
    (calculate_severity_score perms).severity_breakdown.critical =
      perms.filterMap criticalEntry ∧
    (calculate_severity_score perms).severity_breakdown.dangerous =
      perms.filterMap dangerousEntry ∧
    (calculate_severity_score perms).severity_breakdown.normal =
      perms.filterMap normalEntry ∧
    (calculate_severity_score perms).critical_count =
      (calculate_severity_score perms).severity_breakdown.critical.length ∧
    (calculate_severity_score perms).dangerous_count =
      (calculate_severity_score perms).severity_breakdown.dangerous.length ∧
    (calculate_severity_score perms).normal_count =
      (calculate_severity_score perms).severity_breakdown.normal.length ∧
    (∀ p, PERMISSION_METADATA.lookup p = none →
      ∀ e ∈ (calculate_severity_score perms).severity_breakdown.critical ++
            (calculate_severity_score perms).severity_breakdown.dangerous ++
            (calculate_severity_score perms).severity_breakdown.normal,
        e.permission ≠ p) := by
  obtain ⟨h1, h2, h3, h4⟩ := sevLoop_spec perms ⟨0, [], [], [], []⟩
  have ht : (calculate_severity_score perms).total_score = (perms.map permSeverity).sum := by
    show (perms.foldl sevStep ⟨0, [], [], [], []⟩).total = _
    rw [h1]
    simp
  have hcrit : (calculate_severity_score perms).severity_breakdown.critical =
      perms.filterMap criticalEntry := by
    show (perms.foldl sevStep ⟨0, [], [], [], []⟩).critical = _
    rw [h2]
    simp
  have hdang : (calculate_severity_score perms).severity_breakdown.dangerous =
      perms.filterMap dangerousEntry := by
    show (perms.foldl sevStep ⟨0, [], [], [], []⟩).dangerous = _
    rw [h3]
    simp
  have hnorm : (calculate_severity_score perms).severity_breakdown.normal =
      perms.filterMap normalEntry := by
    show (perms.foldl sevStep ⟨0, [], [], [], []⟩).normal = _
    rw [h4]
    simp
  refine ⟨ht, hcrit, hdang, hnorm, rfl, rfl, rfl, ?_⟩
  intro p hp e he hep
  rw [hcrit, hdang, hnorm] at he
  simp only [List.mem_append] at he
  rcases he with (he | he) | he
  · have := filterMap_entry_known criticalEntry_known he
    rw [hep, hp] at this
    simp at this
  · have := filterMap_entry_known dangerousEntry_known he
    rw [hep, hp] at this
    simp at this
  · have := filterMap_entry_known normalEntry_known he
    rw [hep, hp] at this
    simp at this

theorem C1_witness :
    PERMISSION_METADATA.lookup "BLUETOOTH" = none ∧
    (calculate_severity_score ["CAMERA", "BLUETOOTH", "INTERNET"]).total_score =
      (["CAMERA", "BLUETOOTH", "INTERNET"].map permSeverity).sum ∧
    (∀ e ∈ (calculate_severity_score ["CAMERA", "BLUETOOTH", "INTERNET"]).severity_breakdown.critical ++
          (calculate_severity_score ["CAMERA", "BLUETOOTH", "INTERNET"]).severity_breakdown.dangerous ++
          (calculate_severity_score ["CAMERA", "BLUETOOTH", "INTERNET"]).severity_breakdown.normal,
      e.permission ≠ "BLUETOOTH") :=
  ⟨by decide,
   (C1_severity_score_correct ["CAMERA", "BLUETOOTH", "INTERNET"]).1,
   (C1_severity_score_correct ["CAMERA", "BLUETOOTH", "INTERNET"]).2.2.2.2.2.2.2
     "BLUETOOTH" (by decide)⟩

theorem levelRank_LOW : levelRank "LOW" = 0 := rfl

theorem levelRank_MEDIUM : levelRank "MEDIUM" = 1 := rfl

theorem levelRank_HIGH : levelRank "HIGH" = 2 := rfl

theorem levelRank_CRITICAL : levelRank "CRITICAL" = 3 := rfl

theorem calculate_risk_level_eq (s : Int) (h0 : 0 ≤ s) :
    calculate_risk_level s =
      if s ≤ 15 then "LOW" else if s ≤ 45 then "MEDIUM"
      else if s ≤ 85 then "HIGH" else "CRITICAL" := by
  simp only [calculate_risk_level, RISK_THRESHOLDS, calcRiskLevelAux, thresholdMatches,
    decide_eq_true_eq]
  split_ifs <;> first | rfl | omega

/-- C2: `calculate_risk_level` is total on non-negative integers, always
returning one of the four declared band names (the fallthrough returns
CRITICAL), and is monotonic non-decreasing in the order
LOW < MEDIUM < HIGH < CRITICAL with the declared table LOW=(0,15),
MEDIUM=(16,45), HIGH=(46,85), CRITICAL=(86,100). -/
theorem C2_risk_level_total_monotone (s1 s2 : Int) (h1 : 0 ≤ s1) (h12 : s1 ≤ s2) :
    (calculate_risk_level s1 = "LOW" ∨ calculate_risk_level s1 = "MEDIUM" ∨
      calculate_risk_level s1 = "HIGH" ∨ calculate_risk_level s1 = "CRITICAL") ∧
    levelRank (calculate_risk_level s1) ≤ levelRank (calculate_risk_level s2) := by
  rw [calculate_risk_level_eq s1 h1, calculate_risk_level_eq s2 (h1.trans h12)]
  split_ifs <;>
    exact ⟨by decide, by first | decide | omega⟩

theorem C2_witness :
    ((0 : Int) ≤ 3 ∧ (3 : Int) ≤ 50) ∧
    ((calculate_risk_level 3 = "LOW" ∨ calculate_risk_level 3 = "MEDIUM" ∨
      calculate_risk_level 3 = "HIGH" ∨ calculate_risk_level 3 = "CRITICAL") ∧
      levelRank (calculate_risk_level 3) ≤ levelRank (calculate_risk_level 50)) :=
  ⟨⟨by decide, by decide⟩, C2_risk_level_total_monotone 3 50 (by decide) (by decide)⟩

/-- C3 counterexample: the Instagram list does score 27, but
`calculate_risk_level 27` is not HIGH — 27 falls in the declared MEDIUM
band (16, 45). -/
theorem C3_counterexample :
    (calculate_severity_score ["INTERNET", "CAMERA", "MICROPHONE", "LOCATION"]).total_score = 27 ∧
    calculate_risk_level 27 ≠ "HIGH" := by
  decide

/-- C3 amended: for the Instagram permission list, `calculate_severity_score`
returns total_score = 1+8+9+9 = 27 and `calculate_risk_level 27` returns
MEDIUM (the declared band (16, 45)). -/
theorem C3_instagram_score_and_level :
    (calculate_severity_score ["INTERNET", "CAMERA", "MICROPHONE", "LOCATION"]).total_score = 27 ∧
    calculate_risk_level 27 = "MEDIUM" := by
  decide

theorem correlationEntry_eq_some (perms : List String) (q : String) (c : Correlation)
    (h : correlationEntry perms q = some c) :
    ∃ related, PERMISSION_CORRELATIONS.lookup q = some related ∧
      c = ⟨q, related.filter (fun p => decide (p ∈ perms)),
           (related.filter (fun p => decide (p ∈ perms))).length⟩ ∧
      related.filter (fun p => decide (p ∈ perms)) ≠ [] := by
  unfold correlationEntry at h
  cases hl : PERMISSION_CORRELATIONS.lookup q with
  | none => rw [hl] at h; exact absurd h (by simp)
  | some related =>
    rw [hl] at h
    simp only at h
    by_cases hempty : (related.filter (fun p => decide (p ∈ perms))).isEmpty
    · rw [if_pos hempty] at h
      exact absurd h (by simp)
    · rw [if_neg hempty] at h
      refine ⟨related, rfl, (Option.some.inj h).symm, ?_⟩
      simpa [List.isEmpty_iff] using hempty

theorem correlationEntry_of_found (perms : List String) (q : String) (related : List String)
    (hl : PERMISSION_CORRELATIONS.lookup q = some related)
    (hne : related.filter (fun p => decide (p ∈ perms)) ≠ []) :
    correlationEntry perms q =
      some ⟨q, related.filter (fun p => decide (p ∈ perms)),
            (related.filter (fun p => decide (p ∈ perms))).length⟩ := by
  unfold correlationEntry
  rw [hl]
  simp only
  rw [if_neg (by simpa [List.isEmpty_iff] using hne)]

theorem pairFound_iff (perms : List String) (pr : String) (cor : List String) :
    pairFound perms pr cor ↔
      (pr ∈ perms ∧ ∃ related, PERMISSION_CORRELATIONS.lookup pr = some related ∧
        cor = related.filter (fun p => decide (p ∈ perms)) ∧ cor ≠ []) := by
  unfold pairFound detect_permission_correlations
  simp only [List.mem_filterMap]
  constructor
  · rintro ⟨c, ⟨q, hq, hce⟩, hpr, hcor⟩
    obtain ⟨related, hl, hc, hne⟩ := correlationEntry_eq_some perms q c hce
    subst hc
    simp only at hpr hcor
    subst hpr
    subst hcor
    exact ⟨hq, related, hl, rfl, hne⟩
  · rintro ⟨hpr, related, hl, hcor, hne⟩
    subst hcor
    exact ⟨⟨pr, related.filter (fun p => decide (p ∈ perms)),
            (related.filter (fun p => decide (p ∈ perms))).length⟩,
      ⟨pr, hpr, correlationEntry_of_found perms pr related hl hne⟩, rfl, rfl⟩

/-- C4: every reported correlations entry comes from an input permission
with a correlation-table entry whose related list meets the input, carries
the intersection in the table's declared order with `count` its length; every
such input permission is reported; and which `(primary, correlated)` pairs
are found is invariant under permuting the input list. -/
theorem C4_correlations_correct (perms : List String) :
    (∀ c ∈ (detect_permission_correlations perms).correlations,
      c.primary ∈ perms ∧
      ∃ related, PERMISSION_CORRELATIONS.lookup c.primary = some related ∧
        c.correlated = related.filter (fun p => decide (p ∈ perms)) ∧
        c.correlated ≠ [] ∧
        c.correlated.Sublist related ∧
        (∀ p, p ∈ c.correlated ↔ p ∈ related ∧ p ∈ perms) ∧
        c.count = c.correlated.length) ∧
    (∀ perm ∈ perms, ∀ related, PERMISSION_CORRELATIONS.lookup perm = some related →
      ∀ p ∈ related, p ∈ perms →
        ∃ c ∈ (detect_permission_correlations perms).correlations, c.primary = perm) ∧
    (∀ perms2 : List String, perms.Perm perms2 → ∀ pr cor,
      (pairFound perms pr cor ↔ pairFound perms2 pr cor)) := by
  refine ⟨?_, ?_, ?_⟩
  · intro c hc
    simp only [detect_permission_correlations, List.mem_filterMap] at hc
    obtain ⟨q, hq, hce⟩ := hc
    obtain ⟨related, hl, hcdef, hne⟩ := correlationEntry_eq_some perms q c hce
    subst hcdef
    refine ⟨hq, related, hl, rfl, hne, List.filter_sublist related, ?_, rfl⟩
    intro p
    simp [List.mem_filter]
  · intro perm hperm related hl p hp hpperms
    have hne : related.filter (fun p => decide (p ∈ perms)) ≠ [] := by
      intro hnil
      have : p ∈ related.filter (fun p => decide (p ∈ perms)) := by
        simp [List.mem_filter, hp, hpperms]
      rw [hnil] at this
      exact absurd this (List.not_mem_nil p)
    refine ⟨⟨perm, related.filter (fun p => decide (p ∈ perms)),
            (related.filter (fun p => decide (p ∈ perms))).length⟩, ?_, rfl⟩
    simp only [detect_permission_correlations, List.mem_filterMap]
    exact ⟨perm, hperm, correlationEntry_of_found perms perm related hl hne⟩
  · intro perms2 hperm pr cor
    rw [pairFound_iff, pairFound_iff]
    have hmem : ∀ p : String, p ∈ perms ↔ p ∈ perms2 := fun p => hperm.mem_iff
    have hfilter : ∀ related : List String,
        related.filter (fun p => decide (p ∈ perms)) =
        related.filter (fun p => decide (p ∈ perms2)) := by
      intro related
      apply List.filter_congr
      intro p _
      simp [hmem p]
    constructor
    · rintro ⟨h1, related, hl, hcor, hne⟩
      exact ⟨(hmem pr).mp h1, related, hl, by rw [hcor, hfilter related], hne⟩
    · rintro ⟨h1, related, hl, hcor, hne⟩
      exact ⟨(hmem pr).mpr h1, related, hl, by rw [hcor, hfilter related], hne⟩

theorem C4_witness :
    (["CAMERA", "LOCATION"] : List String).Perm ["LOCATION", "CAMERA"] ∧
    (pairFound ["CAMERA", "LOCATION"] "CAMERA" ["LOCATION"] ↔
      pairFound ["LOCATION", "CAMERA"] "CAMERA" ["LOCATION"]) :=
  ⟨List.Perm.swap "LOCATION" "CAMERA" [],
   (C4_correlations_correct ["CAMERA", "LOCATION"]).2.2 ["LOCATION", "CAMERA"]
     (List.Perm.swap "LOCATION" "CAMERA" []) "CAMERA" ["LOCATION"]⟩

/-- C5: the full-communication-profile pattern fires exactly when the input
contains READ_CONTACTS, READ_SMS and CALL_LOG by those exact names; the
FakeApp list (CONTACTS and SMS instead) does not fire it; and
`pattern_risk_level` is CRITICAL exactly when one of the four fixed pattern
rules fired, and is otherwise NORMAL. -/
theorem C5_full_communication_pattern (perms : List String) :
    ("Full communication profile access - EXTREME DATA COLLECTION" ∈
        (detect_permission_correlations perms).suspicious_patterns ↔
      ("READ_CONTACTS" ∈ perms ∧ "READ_SMS" ∈ perms ∧ "CALL_LOG" ∈ perms)) ∧
    "Full communication profile access - EXTREME DATA COLLECTION" ∉
      (detect_permission_correlations
        ["INTERNET", "CAMERA", "MICROPHONE", "CONTACTS", "SMS", "CALL_LOG"]).suspicious_patterns ∧
    ((detect_permission_correlations perms).pattern_risk_level = "CRITICAL" ↔
      (("SMS" ∈ perms ∧ "CALL_PHONE" ∈ perms) ∨ "DEVICE_ADMIN" ∈ perms ∨
       ("READ_CONTACTS" ∈ perms ∧ "READ_SMS" ∈ perms ∧ "CALL_LOG" ∈ perms) ∨
       ("CAMERA" ∈ perms ∧ "MICROPHONE" ∈ perms ∧ "ACCESS_FINE_LOCATION" ∈ perms))) ∧
    ((detect_permission_correlations perms).pattern_risk_level = "CRITICAL" ∨
      (detect_permission_correlations perms).pattern_risk_level = "NORMAL") := by
  refine ⟨?_, by decide, ?_, ?_⟩ <;>
    simp only [detect_permission_correlations, suspiciousPatterns] <;>
    split_ifs <;> simp_all <;> decide

theorem C5_witness :
    ("Full communication profile access - EXTREME DATA COLLECTION" ∈
        (detect_permission_correlations
          ["READ_CONTACTS", "READ_SMS", "CALL_LOG"]).suspicious_patterns ↔
      ("READ_CONTACTS" ∈ (["READ_CONTACTS", "READ_SMS", "CALL_LOG"] : List String) ∧
       "READ_SMS" ∈ (["READ_CONTACTS", "READ_SMS", "CALL_LOG"] : List String) ∧
       "CALL_LOG" ∈ (["READ_CONTACTS", "READ_SMS", "CALL_LOG"] : List String))) :=
  (C5_full_communication_pattern ["READ_CONTACTS", "READ_SMS", "CALL_LOG"]).1

/-- C7: for every app name, `detect_threat_indicators` reports
privilege_escalation exactly when DEVICE_ADMIN is declared, bands
data_exfiltration_risk by the dangerous-permission count (>10 CRITICAL,
>6 HIGH, >3 MEDIUM, else LOW), reports financial_risk HIGH exactly when
SEND_SMS or CALL_PHONE is declared (else LOW), bands privacy_risk by the
declared-permission count (>15 CRITICAL, >10 HIGH, else LOW), lists the
fixed threat strings in rule-evaluation order, and returns the zeroed
default structure for an unknown app name. -/
theorem C7_threat_indicators_correct (app_name : String) :
    (APP_PERMISSION_DATA.lookup app_name = none →
      detect_threat_indicators app_name = ⟨false, "LOW", "LOW", "LOW", []⟩) ∧
    (∀ perms, APP_PERMISSION_DATA.lookup app_name = some perms →
      ((detect_threat_indicators app_name).privilege_escalation = true ↔
        "DEVICE_ADMIN" ∈ perms) ∧
      (detect_threat_indicators app_name).data_exfiltration_risk =
        (if 10 < (perms.filter dangerousPerm).length then "CRITICAL"
         else if 6 < (perms.filter dangerousPerm).length then "HIGH"
         else if 3 < (perms.filter dangerousPerm).length then "MEDIUM" else "LOW") ∧
      ((detect_threat_indicators app_name).financial_risk = "HIGH" ↔
        ("SEND_SMS" ∈ perms ∨ "CALL_PHONE" ∈ perms)) ∧
      ((detect_threat_indicators app_name).financial_risk = "HIGH" ∨
        (detect_threat_indicators app_name).financial_risk = "LOW") ∧
      (detect_threat_indicators app_name).privacy_risk =
        (if 15 < perms.length then "CRITICAL"
         else if 10 < perms.length then "HIGH" else "LOW") ∧
      (detect_threat_indicators app_name).detected_threats =
        (if "DEVICE_ADMIN" ∈ perms then ["Device admin access"] else []) ++
        (if 10 < (perms.filter dangerousPerm).length then
          ["Excessive dangerous permissions"] else []) ++
        (if "SEND_SMS" ∈ perms ∨ "CALL_PHONE" ∈ perms then
          ["Can make calls or send SMS (financial risk)"] else []) ++
        (if 15 < perms.length then
          ["Unusually high number of permission requests"] else [])) := by
  constructor
  · intro h
    simp [detect_threat_indicators, h]
  · intro perms h
    unfold detect_threat_indicators
    rw [h]
    refine ⟨by simp, rfl, ?_, ?_, rfl, rfl⟩
    · by_cases hs : "SEND_SMS" ∈ perms ∨ "CALL_PHONE" ∈ perms
      · simp [hs]
      · simp [hs]
    · by_cases hs : "SEND_SMS" ∈ perms ∨ "CALL_PHONE" ∈ perms
      · simp [hs]
      · simp [hs]

theorem C7_witness :
    (APP_PERMISSION_DATA.lookup "NoSuchApp" = none ∧
      detect_threat_indicators "NoSuchApp" = ⟨false, "LOW", "LOW", "LOW", []⟩) ∧
    (APP_PERMISSION_DATA.lookup "FakeApp" =
      some ["INTERNET", "CAMERA", "MICROPHONE", "CONTACTS", "SMS", "CALL_LOG"] ∧
      ((detect_threat_indicators "FakeApp").financial_risk = "HIGH" ↔
        ("SEND_SMS" ∈ (["INTERNET", "CAMERA", "MICROPHONE", "CONTACTS", "SMS",
           "CALL_LOG"] : List String) ∨
         "CALL_PHONE" ∈ (["INTERNET", "CAMERA", "MICROPHONE", "CONTACTS", "SMS",
           "CALL_LOG"] : List String)))) :=
  ⟨⟨by decide, (C7_threat_indicators_correct "NoSuchApp").1 (by decide)⟩,
   ⟨by decide,
    ((C7_threat_indicators_correct "FakeApp").2
      ["INTERNET", "CAMERA", "MICROPHONE", "CONTACTS", "SMS", "CALL_LOG"]
      (by decide)).2.2.1⟩⟩

/-- C8: for every app name absent from `APP_PERMISSION_DATA`, `analyze_app`
returns the error-field result (it does not raise), and in the bulk-analyze
per-app loop such names are silently dropped from the results. -/
theorem C8_unknown_app_error (app_name : String) (names : List String)
    (h : APP_PERMISSION_DATA.lookup app_name = none) :
    analyze_app app_name = some (.error "App not found in database") ∧
    bulkResults (app_name :: names) = bulkResults names := by
  constructor
  · simp [analyze_app, h]
  · simp [bulkResults, h]

theorem C8_witness :
    APP_PERMISSION_DATA.lookup "Facebook" = none ∧
    analyze_app "Facebook" = some (.error "App not found in database") ∧
    bulkResults ["Facebook", "Instagram"] = bulkResults ["Instagram"] :=
  ⟨by decide, (C8_unknown_app_error "Facebook" ["Instagram"] (by decide)).1,
   (C8_unknown_app_error "Facebook" ["Instagram"] (by decide)).2⟩

/-- C9: the band-iteration loop of `calculate_risk_level` classifies every
score identically over two threshold tables whose entries carry the same
level names and the same inclusive bounds, one rendered as a `{min, max}`
dict and the other as a 2-tuple (in any per-entry mixture). -/
theorem C9_threshold_representation_equiv (ts1 ts2 : List (String × Threshold))
    (h : List.Forall₂ (fun a b => a.1 = b.1 ∧
      ∃ lo hi, reprOf lo hi a.2 ∧ reprOf lo hi b.2) ts1 ts2) (score : Int) :
    calcRiskLevelAux ts1 score = calcRiskLevelAux ts2 score := by
  induction h with
  | nil => rfl
  | @cons a b l1 l2 hab htail ih =>
    obtain ⟨na, ta⟩ := a
    obtain ⟨nb, tb⟩ := b
    obtain ⟨hname, lo, hi, hra, hrb⟩ := hab
    dsimp only at hname
    subst hname
    have hmatch : thresholdMatches ta score = thresholdMatches tb score := by
      rcases hra with h1 | h1 <;> rcases hrb with h2 | h2 <;> subst h1 <;> subst h2 <;>
        simp [thresholdMatches]
    simp only [calcRiskLevelAux, hmatch]
    by_cases hm : thresholdMatches tb score
    · simp [hm]
    · simp [hm, ih]

theorem C9_witness :
    List.Forall₂ (fun a b => a.1 = b.1 ∧
      ∃ lo hi, reprOf lo hi a.2 ∧ reprOf lo hi b.2)
      RISK_THRESHOLDS RISK_THRESHOLDS_DICT ∧
    calcRiskLevelAux RISK_THRESHOLDS 27 = calcRiskLevelAux RISK_THRESHOLDS_DICT 27 := by
  have hf : List.Forall₂ (fun a b => a.1 = b.1 ∧
      ∃ lo hi, reprOf lo hi a.2 ∧ reprOf lo hi b.2)
      RISK_THRESHOLDS RISK_THRESHOLDS_DICT := by
    refine .cons ⟨rfl, 0, 15, .inr rfl, .inl rfl⟩
      (.cons ⟨rfl, 16, 45, .inr rfl, .inl rfl⟩
        (.cons ⟨rfl, 46, 85, .inr rfl, .inl rfl⟩
          (.cons ⟨rfl, 86, 100, .inr rfl, .inl rfl⟩ .nil)))
  exact ⟨hf, C9_threshold_representation_equiv RISK_THRESHOLDS RISK_THRESHOLDS_DICT hf 27⟩

theorem mem_of_lookup_eq_some {β : Type} {l : List (String × β)} {k : String} {v : β}
    (h : l.lookup k = some v) : (k, v) ∈ l := by
  induction l with
  | nil => simp [List.lookup] at h
  | cons a t ih =>
    obtain ⟨ka, va⟩ := a
    simp only [List.lookup] at h
    cases hbeq : k == ka with
    | true =>
      rw [hbeq] at h
      simp only at h
      have hk : k = ka := eq_of_beq hbeq
      subst hk
      rw [← Option.some.inj h]
      exact List.mem_cons_self _ _
    | false =>
      rw [hbeq] at h
      simp only at h
      exact List.mem_cons_of_mem _ (ih h)

theorem metadata_privacy_impacts_valid :
    ∀ pair ∈ PERMISSION_METADATA, pair.2.privacy_impact = "CRITICAL" ∨
      pair.2.privacy_impact = "HIGH" ∨ pair.2.privacy_impact = "MEDIUM" ∨
      pair.2.privacy_impact = "LOW" := by
  decide

theorem setInsert_nodup {s : List String} {x : String} (h : s.Nodup) :
    (setInsert s x).Nodup := by
  unfold setInsert
  split_ifs with hx
  · exact h
  · simp [List.nodup_append, h, hx]

theorem setInsert_mem {s : List String} {x y : String} :
    y ∈ setInsert s x ↔ y ∈ s ∨ y = x := by
  unfold setInsert
  split_ifs with hx
  · constructor
    · exact Or.inl
    · rintro (hy | rfl)
      · exact hy
      · exact hx
  · simp

theorem setUpdateAll_nodup (xs : List String) {s : List String} (h : s.Nodup) :
    (setUpdateAll s xs).Nodup := by
  induction xs generalizing s with
  | nil => exact h
  | cons x t ih => exact ih (setInsert_nodup h)

theorem setUpdateAll_mem (xs : List String) (s : List String) (y : String) :
    y ∈ setUpdateAll s xs ↔ y ∈ s ∨ y ∈ xs := by
  induction xs generalizing s with
  | nil => simp [setUpdateAll]
  | cons x t ih =>
    show y ∈ setUpdateAll (setInsert s x) t ↔ _
    rw [ih (setInsert s x)]
    rw [setInsert_mem]
    simp only [List.mem_cons]
    tauto

theorem privacyLoop_spec (perms : List String) (pi : PrivacyImpacts) (types : List String)
    (htypes : types.Nodup) :
    ∃ pi2 types2, privacyLoop perms pi types = some (pi2, types2) ∧ types2.Nodup ∧
      (∀ x, x ∈ types2 ↔ (x ∈ types ∨ ∃ p ∈ perms, ∃ m,
        PERMISSION_METADATA.lookup p = some m ∧ x ∈ m.can_access)) := by
  induction perms generalizing pi types with
  | nil => exact ⟨pi, types, rfl, htypes, by simp⟩
  | cons q rest ih =>
    cases hm : PERMISSION_METADATA.lookup q with
    | none =>
      obtain ⟨pi2, types2, heq, hnd, hmem⟩ := ih pi types htypes
      refine ⟨pi2, types2, ?_, hnd, ?_⟩
      · simp [privacyLoop, hm, heq]
      · intro x
        rw [hmem x]
        simp only [List.mem_cons]
        constructor
        · rintro (hx | ⟨p, hp, m, hlm, hxm⟩)
          · exact Or.inl hx
          · exact Or.inr ⟨p, Or.inr hp, m, hlm, hxm⟩
        · rintro (hx | ⟨p, rfl | hp, m, hlm, hxm⟩)
          · exact Or.inl hx
          · rw [hm] at hlm
            cases hlm
          · exact Or.inr ⟨p, hp, m, hlm, hxm⟩
    | some meta =>
      have hvalid : meta.privacy_impact = "CRITICAL" ∨ meta.privacy_impact = "HIGH" ∨
          meta.privacy_impact = "MEDIUM" ∨ meta.privacy_impact = "LOW" :=
        metadata_privacy_impacts_valid (q, meta) (mem_of_lookup_eq_some hm)
      have haddi : ∃ pi3, addImpact pi meta.privacy_impact
          ⟨q, meta.description, meta.can_access⟩ = some pi3 := by
        rcases hvalid with h | h | h | h
        · exact ⟨⟨pi.critical ++ [⟨q, meta.description, meta.can_access⟩],
            pi.high, pi.medium, pi.low⟩, by simp [addImpact, h]⟩
        · exact ⟨⟨pi.critical, pi.high ++ [⟨q, meta.description, meta.can_access⟩],
            pi.medium, pi.low⟩, by simp [addImpact, h]⟩
        · exact ⟨⟨pi.critical, pi.high,
            pi.medium ++ [⟨q, meta.description, meta.can_access⟩], pi.low⟩,
            by simp [addImpact, h]⟩
        · exact ⟨⟨pi.critical, pi.high, pi.medium,
            pi.low ++ [⟨q, meta.description, meta.can_access⟩]⟩,
            by simp [addImpact, h]⟩
      obtain ⟨pi3, haddi⟩ := haddi
      obtain ⟨pi2, types2, heq, hnd, hmem⟩ :=
        ih pi3 (setUpdateAll types meta.can_access) (setUpdateAll_nodup _ htypes)
      refine ⟨pi2, types2, ?_, hnd, ?_⟩
      · simp [privacyLoop, hm, haddi, heq]
      · intro x
        rw [hmem x, setUpdateAll_mem]
        simp only [List.mem_cons]
        constructor
        · rintro ((hx | hxa) | ⟨p, hp, m, hlm, hxm⟩)
          · exact Or.inl hx
          · exact Or.inr ⟨q, Or.inl rfl, meta, hm, hxa⟩
          · exact Or.inr ⟨p, Or.inr hp, m, hlm, hxm⟩
        · rintro (hx | ⟨p, rfl | hp, m, hlm, hxm⟩)
          · exact Or.inl (Or.inl hx)
          · rw [hm] at hlm
            rw [← Option.some.inj hlm] at hxm
            exact Or.inl (Or.inr hxm)
          · exact Or.inr ⟨p, hp, m, hlm, hxm⟩

/-- C10: `analyze_privacy_impact` never fails on any permission list — the
`privacy_impacts[impact]` index always hits one of the four fixed keys since
every metadata entry's privacy impact is CRITICAL, HIGH, MEDIUM or LOW —
and `affected_data_types` holds each reachable `can_access` label exactly
once, with `data_types_count` equal to its length. -/
theorem C10_privacy_impact_total (perms : List String) :
    ∃ r, analyze_privacy_impact perms = some r ∧
      r.affected_data_types.Nodup ∧
      r.data_types_count = r.affected_data_types.length ∧
      (∀ x, x ∈ r.affected_data_types ↔ ∃ p ∈ perms, ∃ m,
        PERMISSION_METADATA.lookup p = some m ∧ x ∈ m.can_access) := by
  obtain ⟨pi2, types2, heq, hnd, hmem⟩ :=
    privacyLoop_spec perms ⟨[], [], [], []⟩ [] List.nodup_nil
  refine ⟨⟨pi2, types2, decide (0 < pi2.critical.length), types2.length⟩, ?_, hnd, rfl, ?_⟩
  · simp [analyze_privacy_impact, heq]
  · intro x
    rw [hmem x]
    simp

theorem C10_witness :
    ∃ r, analyze_privacy_impact ["CAMERA", "CAMERA", "INTERNET", "UNKNOWN_PERM"] = some r ∧
      r.affected_data_types.Nodup ∧
      r.data_types_count = r.affected_data_types.length ∧
      (∀ x, x ∈ r.affected_data_types ↔
        ∃ p ∈ (["CAMERA", "CAMERA", "INTERNET", "UNKNOWN_PERM"] : List String), ∃ m,
          PERMISSION_METADATA.lookup p = some m ∧ x ∈ m.can_access) :=
  C10_privacy_impact_total ["CAMERA", "CAMERA", "INTERNET", "UNKNOWN_PERM"]

theorem metadata_categories_valid :
    ∀ pair ∈ PERMISSION_METADATA, (PERMISSION_CATEGORIES.lookup pair.2.category).isSome := by
  decide

theorem nameInCats_cons {c : String} {g : CategoryGroup}
    {t : List (String × CategoryGroup)} {p : String} :
    nameInCats ((c, g) :: t) p ↔ (∃ e ∈ g.permissions, e.name = p) ∨ nameInCats t p := by
  unfold nameInCats
  constructor
  · rintro ⟨pair, hpair, e, he, hname⟩
    rcases List.mem_cons.mp hpair with rfl | hpt
    · exact Or.inl ⟨e, he, hname⟩
    · exact Or.inr ⟨pair, hpt, e, he, hname⟩
  · rintro (⟨e, he, hname⟩ | ⟨pair, hpt, e, he, hname⟩)
    · exact ⟨(c, g), List.mem_cons_self _ _, e, he, hname⟩
    · exact ⟨pair, List.mem_cons_of_mem _ hpt, e, he, hname⟩

theorem nameInCats_append {l1 l2 : List (String × CategoryGroup)} {p : String} :
    nameInCats (l1 ++ l2) p ↔ nameInCats l1 p ∨ nameInCats l2 p := by
  unfold nameInCats
  constructor
  · rintro ⟨pair, hpair, hrest⟩
    rcases List.mem_append.mp hpair with h | h
    · exact Or.inl ⟨pair, h, hrest⟩
    · exact Or.inr ⟨pair, h, hrest⟩
  · rintro (⟨pair, h, hrest⟩ | ⟨pair, h, hrest⟩)
    · exact ⟨pair, List.mem_append_left _ h, hrest⟩
    · exact ⟨pair, List.mem_append_right _ h, hrest⟩

theorem nameInCats_nil {p : String} : ¬ nameInCats [] p := by
  rintro ⟨pair, hpair, _⟩
  exact List.not_mem_nil pair hpair

theorem appendToCat_nameIn {acc : List (String × CategoryGroup)} {cat : String}
    {e : CatPermEntry} (hsome : (acc.lookup cat).isSome) (p : String) :
    nameInCats (appendToCat acc cat e) p ↔ (nameInCats acc p ∨ p = e.name) := by
  induction acc with
  | nil => simp [List.lookup] at hsome
  | cons a t ih =>
    obtain ⟨c, g⟩ := a
    by_cases hc : c = cat
    · subst hc
      rw [show appendToCat ((c, g) :: t) c e = (c, ⟨g.name, g.permissions ++ [e]⟩) :: t from
        by simp [appendToCat]]
      rw [nameInCats_cons, nameInCats_cons]
      constructor
      · rintro (⟨e2, he2, hname⟩ | ht)
        · rcases List.mem_append.mp he2 with h | h
          · exact Or.inl (Or.inl ⟨e2, h, hname⟩)
          · rw [List.mem_singleton] at h
            subst h
            exact Or.inr hname.symm
        · exact Or.inl (Or.inr ht)
      · rintro ((⟨e2, he2, hname⟩ | ht) | rfl)
        · exact Or.inl ⟨e2, List.mem_append_left _ he2, hname⟩
        · exact Or.inr ht
        · exact Or.inl ⟨e, List.mem_append_right _ (List.mem_singleton_self _), rfl⟩
    · rw [show appendToCat ((c, g) :: t) cat e = (c, g) :: appendToCat t cat e from
        by simp [appendToCat, hc]]
      have hsome2 : (t.lookup cat).isSome := by
        simp only [List.lookup] at hsome
        rw [show (cat == c) = false from beq_eq_false_iff_ne.mpr (fun h => hc h.symm)] at hsome
        simpa using hsome
      rw [nameInCats_cons, nameInCats_cons, ih hsome2]
      constructor
      · rintro (hg | (ht | he2))
        · exact Or.inl (Or.inl hg)
        · exact Or.inl (Or.inr ht)
        · exact Or.inr he2
      · rintro ((hg | ht) | he2)
        · exact Or.inl hg
        · exact Or.inr (Or.inl ht)
        · exact Or.inr (Or.inr he2)

theorem appendToCat_inv {acc : List (String × CategoryGroup)} {cat : String}
    {e : CatPermEntry} (hinv : catInv acc)
    (he : ∃ m, PERMISSION_METADATA.lookup e.name = some m ∧ m.category = cat) :
    catInv (appendToCat acc cat e) := by
  induction acc with
  | nil =>
    intro pair hpair
    simp [appendToCat] at hpair
  | cons a t ih =>
    obtain ⟨c, g⟩ := a
    have hinvt : catInv t := fun pair hp => hinv pair (List.mem_cons_of_mem _ hp)
    by_cases hc : c = cat
    · subst hc
      rw [show appendToCat ((c, g) :: t) c e = (c, ⟨g.name, g.permissions ++ [e]⟩) :: t from
        by simp [appendToCat]]
      intro pair hpair e2 he2
      rcases List.mem_cons.mp hpair with rfl | hpt
      · rcases List.mem_append.mp he2 with h | h
        · exact hinv (c, g) (List.mem_cons_self _ _) e2 h
        · rw [List.mem_singleton] at h
          subst h
          exact he
      · exact hinvt pair hpt e2 he2
    · rw [show appendToCat ((c, g) :: t) cat e = (c, g) :: appendToCat t cat e from
        by simp [appendToCat, hc]]
      intro pair hpair e2 he2
      rcases List.mem_cons.mp hpair with rfl | hpt
      · exact hinv (c, g) (List.mem_cons_self _ _) e2 he2
      · exact ih hinvt pair hpt e2 he2

theorem createCat_inv {acc : List (String × CategoryGroup)} {cat gname : String}
    {e : CatPermEntry} (hinv : catInv acc)
    (he : ∃ m, PERMISSION_METADATA.lookup e.name = some m ∧ m.category = cat) :
    catInv (acc ++ [(cat, ⟨gname, [e]⟩)]) := by
  intro pair hpair e2 he2
  rcases List.mem_append.mp hpair with h | h
  · exact hinv pair h e2 he2
  · rw [List.mem_singleton] at h
    subst h
    rw [List.mem_singleton] at he2
    subst he2
    exact he

theorem categorizeLoop_spec (perms : List String) (acc : List (String × CategoryGroup))
    (hinv : catInv acc) :
    ∃ res, categorizeLoop perms acc = some res ∧ catInv res ∧
      ∀ p, nameInCats res p ↔
        (nameInCats acc p ∨ (p ∈ perms ∧ (PERMISSION_METADATA.lookup p).isSome)) := by
  induction perms generalizing acc with
  | nil =>
    refine ⟨acc, rfl, hinv, ?_⟩
    intro p
    simp
  | cons q rest ih =>
    cases hm : PERMISSION_METADATA.lookup q with
    | none =>
      obtain ⟨res, heq, hres, hmem⟩ := ih acc hinv
      refine ⟨res, by simp [categorizeLoop, hm, heq], hres, ?_⟩
      intro p
      rw [hmem p]
      simp only [List.mem_cons]
      constructor
      · rintro (h | ⟨hp, hsome⟩)
        · exact Or.inl h
        · exact Or.inr ⟨Or.inr hp, hsome⟩
      · rintro (h | ⟨rfl | hp, hsome⟩)
        · exact Or.inl h
        · rw [hm] at hsome
          simp at hsome
        · exact Or.inr ⟨hp, hsome⟩
    | some meta =>
      have hcat : (PERMISSION_CATEGORIES.lookup meta.category).isSome :=
        metadata_categories_valid (q, meta) (mem_of_lookup_eq_some hm)
      by_cases hacc : (acc.lookup meta.category).isSome
      · have hinv2 : catInv (appendToCat acc meta.category ⟨q, meta.severity, meta.risk_level⟩) :=
          appendToCat_inv hinv ⟨meta, hm, rfl⟩
        obtain ⟨res, heq, hres, hmem⟩ := ih _ hinv2
        refine ⟨res, ?_, hres, ?_⟩
        · unfold categorizeLoop
          rw [hm]
          simp only
          rw [if_pos hacc]
          exact heq
        · intro p
          rw [hmem p, appendToCat_nameIn hacc p]
          simp only [List.mem_cons]
          constructor
          · rintro ((h | rfl) | ⟨hp, hsome⟩)
            · exact Or.inl h
            · refine Or.inr ⟨Or.inl rfl, ?_⟩
              rw [hm]
              rfl
            · exact Or.inr ⟨Or.inr hp, hsome⟩
          · rintro (h | ⟨rfl | hp, hsome⟩)
            · exact Or.inl (Or.inl h)
            · exact Or.inl (Or.inr rfl)
            · exact Or.inr ⟨hp, hsome⟩
      · obtain ⟨info, hinfo⟩ := Option.isSome_iff_exists.mp hcat
        have hinv2 : catInv (acc ++
            [(meta.category, ⟨info.name, [⟨q, meta.severity, meta.risk_level⟩]⟩)]) :=
          createCat_inv hinv ⟨meta, hm, rfl⟩
        obtain ⟨res, heq, hres, hmem⟩ := ih _ hinv2
        refine ⟨res, ?_, hres, ?_⟩
        · unfold categorizeLoop
          rw [hm]
          simp only
          rw [if_neg hacc, hinfo]
          exact heq
        · intro p
          rw [hmem p, nameInCats_append, nameInCats_cons]
          simp only [List.mem_cons]
          constructor
          · rintro ((h | (⟨e2, he2, hname⟩ | hnil)) | ⟨hp, hsome⟩)
            · exact Or.inl h
            · have he22 : e2 = ⟨q, meta.severity, meta.risk_level⟩ := by simpa using he2
              subst he22
              have hpq : p = q := hname.symm
              subst hpq
              refine Or.inr ⟨Or.inl rfl, ?_⟩
              rw [hm]
              rfl
            · exact absurd hnil nameInCats_nil
            · exact Or.inr ⟨Or.inr hp, hsome⟩
          · rintro (h | ⟨rfl | hp, hsome⟩)
            · exact Or.inl (Or.inl h)
            · exact Or.inl (Or.inr (Or.inl ⟨⟨p, meta.severity, meta.risk_level⟩,
                Or.inl rfl, rfl⟩))
            · exact Or.inr ⟨hp, hsome⟩

/-- C6: `categorize_permissions` succeeds on every permission list (no
category lookup can fail, since every metadata category is declared in the
category table), the names collected across all category groups are exactly
the known input permissions, and no permission name appears under two
different categories. -/
theorem C6_categorize_partition (perms : List String) :
    ∃ res, categorize_permissions perms = some res ∧
      (∀ p, nameInCats res p ↔ (p ∈ perms ∧ (PERMISSION_METADATA.lookup p).isSome)) ∧
      (∀ pair1 ∈ res, ∀ pair2 ∈ res, ∀ e1 ∈ pair1.2.permissions, ∀ e2 ∈ pair2.2.permissions,
        e1.name = e2.name → pair1.1 = pair2.1) := by
  obtain ⟨res, heq, hres, hmem⟩ := categorizeLoop_spec perms []
    (fun pair hp => absurd hp (List.not_mem_nil pair))
  refine ⟨res, heq, ?_, ?_⟩
  · intro p
    rw [hmem p]
    constructor
    · rintro (h | h)
      · exact absurd h nameInCats_nil
      · exact h
    · exact Or.inr
  · intro pair1 h1 pair2 h2 e1 he1 e2 he2 hname
    obtain ⟨m1, hm1, hc1⟩ := hres pair1 h1 e1 he1
    obtain ⟨m2, hm2, hc2⟩ := hres pair2 h2 e2 he2
    rw [hname] at hm1
    rw [hm1] at hm2
    rw [← hc1, ← hc2, Option.some.inj hm2]

theorem C6_witness :
    ∃ res, categorize_permissions ["CAMERA", "INTERNET", "SENSORS", "NOPE"] = some res ∧
      (∀ p, nameInCats res p ↔
        (p ∈ (["CAMERA", "INTERNET", "SENSORS", "NOPE"] : List String) ∧
          (PERMISSION_METADATA.lookup p).isSome)) ∧
      (∀ pair1 ∈ res, ∀ pair2 ∈ res, ∀ e1 ∈ pair1.2.permissions, ∀ e2 ∈ pair2.2.permissions,
        e1.name = e2.name → pair1.1 = pair2.1) :=
  C6_categorize_partition ["CAMERA", "INTERNET", "SENSORS", "NOPE"]
